import Mathlib

/-!
Verification of the copy-trading core of the polymarket-agent repository.

The development shallowly embeds the TypeScript source:
* `OnChainMonitor.processBlockRange` / `OnChainMonitor.parseTradeEvent`
  (blockchain log scanning, query-result merging and event decoding),
* `OrderService.calculateOrderParams` (replica order sizing strategies),
* `CopyTradingEngine.shouldCopyTrade`, `CopyTradingEngine.updatePosition`
  and `CopyTradingEngine.updateDailyStats` (risk gates and state tracking),
* the observer callback fan-out used by the monitor and the wallet monitor.

JavaScript numbers are modelled as rationals, BigInt values as naturals,
JS `Map` objects as insertion-ordered association lists, and exceptions as
`Except String`.
-/

namespace PolyAgent

/-- Order side, mirroring the `'BUY' | 'SELL'` union used throughout the source. -/
inductive Side where
  | buy
  | sell
deriving DecidableEq, Repr

/-! ## Raw logs and the merge/dedup step of `OnChainMonitor.processBlockRange`

`processBlockRange` issues role-specific `getLogs` queries (maker and taker
filters for `OrderFilled`, sender and recipient filters for `TransferSingle`),
concatenates the result arrays and then builds
`new Map(allEvents.map((e, idx) => [e.transactionHash + idx, e]))`,
taking the map's values as the "deduplicated" event list. -/

/-- A raw log entry as returned by `provider.getLogs`; only the fields the
merge/dedup step can observe are kept. -/
structure RawLog where
  transactionHash : String
  logIndex : Nat
deriving DecidableEq, Repr

/-- JS `Map.set` semantics on an insertion-ordered association list: an existing
key is overwritten in place, a new key is appended. -/
def jsMapUpsert (entries : List (String × RawLog)) (k : String) (v : RawLog) :
    List (String × RawLog) :=
  if entries.any (fun p => p.fst == k) then
    entries.map (fun p => if p.fst == k then (k, v) else p)
  else entries ++ [(k, v)]

/-- Builds a JS `Map` from a list of key/value pairs (later pairs overwrite
earlier ones with the same key) and returns its values in insertion order. -/
def jsMapValuesOfPairs (pairs : List (String × RawLog)) : List RawLog :=
  (pairs.foldl (fun m kv => jsMapUpsert m kv.fst kv.snd) []).map Prod.snd

/-- The dedup step of `OnChainMonitor.processBlockRange`: the key of each event
is `e.transactionHash + idx` where `idx` is the event's position in the
concatenated array (`allEvents.map((e, idx) => [e.transactionHash + idx, e])`). -/
def dedupeByTxHashIdx (events : List RawLog) : List RawLog :=
  jsMapValuesOfPairs
    (events.enum.map (fun p => (p.snd.transactionHash ++ toString p.fst, p.snd)))

/-- Spec-side dedup key set: the distinct (transaction hash, log index) pairs of
a window's merged query results, written from the spec's words "deduplicate by
(transaction hash, log index)" for comparison with `dedupeByTxHashIdx`. -/
def specDistinctTxLogKeys (events : List RawLog) : List (String × Nat) :=
  events.foldl
    (fun acc e =>
      if acc.contains (e.transactionHash, e.logIndex) then acc
      else acc ++ [(e.transactionHash, e.logIndex)])
    []

/-! ## Event decoding: `OnChainMonitor.parseTradeEvent` -/

/-- Decoded argument record of a CTF-Exchange `OrderFilled` event. -/
structure OrderFilledArgs where
  maker : String
  taker : String
  makerAssetId : Nat
  takerAssetId : Nat
  makerAmountFilled : Nat
  takerAmountFilled : Nat
deriving DecidableEq, Repr

/-- Decoded argument record of a CTF-Exchange `OrdersMatched` event. -/
structure OrdersMatchedArgs where
  takerOrderMaker : String
  makerAssetId : Nat
  takerAssetId : Nat
  makerAmountFilled : Nat
  takerAmountFilled : Nat
deriving DecidableEq, Repr

/-- The trade record emitted to observers (`DetectedTrade`), restricted to the
fields `parseTradeEvent` computes from the decoded event. `price` and `size`
are the raw BigInt string values, kept as naturals. -/
structure EmittedTrade where
  walletAddress : String
  tokenID : Nat
  price : Nat
  size : Nat
  side : Side
deriving DecidableEq, Repr

/-- ASCII lower-casing of one character, as `toLowerCase` acts on the hex
address characters the monitor compares. -/
def lowerChar (c : Char) : Char :=
  if c.toNat ≥ 65 ∧ c.toNat ≤ 90 then Char.ofNat (c.toNat + 32) else c

/-- JS `String.prototype.toLowerCase` restricted to the ASCII hex addresses the
monitor compares. -/
def jsToLowerCase (s : String) : String :=
  String.mk (s.data.map lowerChar)

/-- The fixed-point scale `BigInt(1e18)` used by the price computation. -/
def oneE18 : Nat := 10 ^ 18

/-- The `OrderFilled` branch of `parseTradeEvent`: a tracked maker yields a SELL
of the maker leg, otherwise a tracked taker yields a BUY of the taker leg; the
price `BigInt(num) * BigInt(1e18) / BigInt(denom)` is computed only under the
guard `denom !== '0'`, and the initial `'0'` sentinel is kept otherwise. -/
def orderFilledTrade (trackedWallets : List String) (a : OrderFilledArgs) :
    Option EmittedTrade :=
  let makerLower := jsToLowerCase a.maker
  let takerLower := jsToLowerCase a.taker
  let walletSelected : Option String :=
    if trackedWallets.contains makerLower then some a.maker
    else if trackedWallets.contains takerLower then some a.taker
    else none
  match walletSelected with
  | none => none
  | some w =>
    let isMaker := jsToLowerCase w == makerLower
    if isMaker then
      some { walletAddress := w
             tokenID := a.makerAssetId
             price :=
               if a.makerAmountFilled ≠ 0 then
                 a.takerAmountFilled * oneE18 / a.makerAmountFilled
               else 0
             size := a.makerAmountFilled
             side := Side.sell }
    else
      some { walletAddress := w
             tokenID := a.takerAssetId
             price :=
               if a.takerAmountFilled ≠ 0 then
                 a.makerAmountFilled * oneE18 / a.takerAmountFilled
               else 0
             size := a.takerAmountFilled
             side := Side.buy }

/-- The `OrdersMatched` branch of `parseTradeEvent`: a tracked `takerOrderMaker`
always yields a BUY of the taker leg, with the same guarded price division. -/
def ordersMatchedTrade (trackedWallets : List String) (a : OrdersMatchedArgs) :
    Option EmittedTrade :=
  if trackedWallets.contains (jsToLowerCase a.takerOrderMaker) then
    some { walletAddress := a.takerOrderMaker
           tokenID := a.takerAssetId
           price :=
             if a.takerAmountFilled ≠ 0 then
               a.makerAmountFilled * oneE18 / a.takerAmountFilled
             else 0
           size := a.takerAmountFilled
           side := Side.buy }
  else none

/-- One window's `OrderFilled` pipeline from `processBlockRange`: the maker- and
taker-filter query results are concatenated, passed through the dedup step, and
each surviving log is decoded and emitted via `parseTradeEvent`. The ABI
decoding of a raw log is abstracted as a parameter. -/
def processOrderFilledLogs (trackedWallets : List String)
    (decode : RawLog → Option OrderFilledArgs)
    (makerResults takerResults : List RawLog) : List EmittedTrade :=
  (dedupeByTxHashIdx (makerResults ++ takerResults)).filterMap
    (fun log => (decode log).bind (orderFilledTrade trackedWallets))

/-! ## `OrderService.calculateOrderParams` (src/clob/orderService.ts)

Strategy-based replica order sizing. JS numbers are rationals, `throw` is
`Except.error`, and the JS truthiness tests `!config.x` on optional numeric
fields are `none` or `0`. -/

/-- The four copy strategies of `CopyStrategy`. -/
inductive CopyStrategy where
  | exact
  | scaled
  | percentage
  | adaptive
deriving DecidableEq, Repr

/-- A source trade in the normalized form handed to `calculateOrderParams`. -/
structure CopyTrade where
  tokenID : String
  price : ℚ
  size : ℚ
  side : Side
deriving DecidableEq, Repr

/-- The `CopyStrategyConfig` record of optional strategy parameters. -/
structure CopyStrategyConfig where
  strategy : CopyStrategy
  scaleFactor : Option ℚ := none
  percentageOfBalance : Option ℚ := none
  maxSlippage : Option ℚ := none
  currentBalance : Option ℚ := none
  currentMarketPrice : Option ℚ := none
deriving DecidableEq, Repr

/-- The `CalculatedOrderParams` record returned on success. -/
structure CalculatedOrderParams where
  tokenID : String
  price : ℚ
  size : ℚ
  side : Side
  feeRateBps : ℚ
deriving DecidableEq, Repr

/-- The strategy `switch` of `calculateOrderParams`, producing the pair
(calculatedPrice, calculatedSize) before the final validation. Each guard
mirrors the source's truthiness checks: `!x || x <= 0` on an optional rational
fails for `none` and for any value `≤ 0`, while `!config.maxSlippage` fails
only for `none` or `0`. -/
def computeStrategyParams (trade : CopyTrade) (config : CopyStrategyConfig) :
    Except String (ℚ × ℚ) :=
  match config.strategy with
  | CopyStrategy.exact => Except.ok (trade.price, trade.size)
  | CopyStrategy.scaled =>
    match config.scaleFactor with
    | none => Except.error "scaleFactor is required for scaled strategy"
    | some sf =>
      if sf ≤ 0 then Except.error "scaleFactor is required for scaled strategy"
      else Except.ok (trade.price, trade.size * sf)
  | CopyStrategy.percentage =>
    match config.percentageOfBalance with
    | none => Except.error "percentageOfBalance is required for percentage strategy"
    | some pob =>
      if pob ≤ 0 then Except.error "percentageOfBalance is required for percentage strategy"
      else
        match config.currentBalance with
        | none => Except.error "currentBalance is required for percentage strategy"
        | some bal =>
          if bal ≤ 0 then Except.error "currentBalance is required for percentage strategy"
          else Except.ok (trade.price, bal * pob / trade.price)
  | CopyStrategy.adaptive =>
    match config.currentMarketPrice with
    | none => Except.error "currentMarketPrice is required for adaptive strategy"
    | some marketPrice =>
      if marketPrice ≤ 0 then Except.error "currentMarketPrice is required for adaptive strategy"
      else
        match config.maxSlippage with
        | none => Except.error "maxSlippage is required for adaptive strategy"
        | some maxSlip =>
          if maxSlip = 0 then Except.error "maxSlippage is required for adaptive strategy"
          else
            let priceDiff := |marketPrice - trade.price|
            let slippagePercent := priceDiff / marketPrice
            let calculatedPrice :=
              if slippagePercent > maxSlip then
                if trade.side = Side.buy then marketPrice * (1 + maxSlip * (1/2))
                else marketPrice * (1 - maxSlip * (1/2))
              else trade.price
            Except.ok (calculatedPrice, trade.size)

/-- `OrderService.calculateOrderParams`: runs the strategy computation, then the
final validation `calculatedPrice <= 0 || calculatedSize <= 0` which throws on a
non-positive computed price or size. -/
def calculateOrderParams (trade : CopyTrade) (config : CopyStrategyConfig) :
    Except String CalculatedOrderParams :=
  match computeStrategyParams trade config with
  | Except.error e => Except.error e
  | Except.ok (calculatedPrice, calculatedSize) =>
    if calculatedPrice ≤ 0 ∨ calculatedSize ≤ 0 then
      Except.error "Invalid calculated order parameters"
    else
      Except.ok { tokenID := trade.tokenID
                  price := calculatedPrice
                  size := calculatedSize
                  side := trade.side
                  feeRateBps := 0 }

/-! ## `CopyTradingEngine` state updates (src/unnamed/part_005 and part_006)

Positions are a JS `Map` keyed by token id, modelled as an insertion-ordered
association list. -/

/-- A tracked position (`Position`). -/
structure Position where
  tokenID : String
  size : ℚ
  avgPrice : ℚ
  side : Side
  valueUSD : ℚ
deriving DecidableEq, Repr

/-- The positions map `Map<string, Position>`. -/
abbrev PositionsMap := List (String × Position)

/-- JS `Map.get`. -/
def mapGet (m : PositionsMap) (k : String) : Option Position :=
  (m.find? (fun p => p.fst == k)).map Prod.snd

/-- JS `Map.set`: overwrites an existing key in place, appends a new key. -/
def mapSet (m : PositionsMap) (k : String) (v : Position) : PositionsMap :=
  if m.any (fun p => p.fst == k) then
    m.map (fun p => if p.fst == k then (k, v) else p)
  else m ++ [(k, v)]

/-- JS `Map.delete`. -/
def mapDelete (m : PositionsMap) (k : String) : PositionsMap :=
  m.filter (fun p => p.fst != k)

/-- `CopyTradingEngine.updatePosition`: a BUY merges into (or creates) the
position at the recomputed average price; a SELL against an existing BUY
position subtracts the sold size, decreases `valueUSD` by
`orderParams.price * orderParams.size`, and deletes the position when the
remaining size is `≤ 0`. Any other SELL leaves the map unchanged. -/
def updatePosition (positions : PositionsMap) (orderParams : CalculatedOrderParams) :
    PositionsMap :=
  let orderValue := orderParams.price * orderParams.size
  let currentPosition := mapGet positions orderParams.tokenID
  match orderParams.side with
  | Side.buy =>
    match currentPosition with
    | some cp =>
      let totalSize := cp.size + orderParams.size
      let totalValue := cp.valueUSD + orderValue
      mapSet positions orderParams.tokenID
        { tokenID := orderParams.tokenID
          size := totalSize
          avgPrice := totalValue / totalSize
          side := Side.buy
          valueUSD := totalValue }
    | none =>
      mapSet positions orderParams.tokenID
        { tokenID := orderParams.tokenID
          size := orderParams.size
          avgPrice := orderParams.price
          side := Side.buy
          valueUSD := orderValue }
  | Side.sell =>
    match currentPosition with
    | some cp =>
      if cp.side = Side.buy then
        let newSize := cp.size - orderParams.size
        let soldValue := orderParams.price * orderParams.size
        let remainingValue := cp.valueUSD - soldValue
        if newSize ≤ 0 then mapDelete positions orderParams.tokenID
        else
          mapSet positions orderParams.tokenID
            { tokenID := orderParams.tokenID
              size := newSize
              avgPrice := cp.avgPrice
              side := Side.buy
              valueUSD := remainingValue }
      else positions
    | none => positions

/-- Applies a sequence of successfully executed orders to the positions map. -/
def applyOrders (positions : PositionsMap) (orders : List CalculatedOrderParams) :
    PositionsMap :=
  orders.foldl updatePosition positions

/-- The `DailyStats` record. -/
structure DailyStats where
  date : String
  startingBalance : ℚ
  currentBalance : ℚ
  totalLoss : ℚ
  totalProfit : ℚ
  tradesCount : Nat
deriving DecidableEq, Repr

/-- `CopyTradingEngine.updateDailyStats`: debits the running balance by the
order notional on a BUY and credits it on a SELL, then writes `Math.abs(pnl)`
into `totalLoss` when the deviation from the day-open balance is negative and
into `totalProfit` otherwise — the branch not taken keeps its previous value. -/
def updateDailyStats (stats : DailyStats) (orderParams : CalculatedOrderParams) :
    DailyStats :=
  let orderValue := orderParams.price * orderParams.size
  let newBalance :=
    if orderParams.side = Side.buy then stats.currentBalance - orderValue
    else stats.currentBalance + orderValue
  let pnl := newBalance - stats.startingBalance
  if pnl < 0 then
    { stats with
        currentBalance := newBalance
        tradesCount := stats.tradesCount + 1
        totalLoss := |pnl| }
  else
    { stats with
        currentBalance := newBalance
        tradesCount := stats.tradesCount + 1
        totalProfit := pnl }

/-- The running-balance update line of `updateDailyStats` on its own: debit the
order notional on a BUY, credit it on a SELL. -/
def jsNewBalance (stats : DailyStats) (orderParams : CalculatedOrderParams) : ℚ :=
  if orderParams.side = Side.buy then
    stats.currentBalance - orderParams.price * orderParams.size
  else stats.currentBalance + orderParams.price * orderParams.size

/-! ## `CopyTradingEngine.shouldCopyTrade` (src/unnamed/part_005)

The risk/filter gate. External lookups (market metadata, order-book liquidity,
daily stats initialization) are passed in as an environment record. -/

/-- Market metadata as used by the gate; `conditionIdOf` reproduces
`marketInfo.conditionId || marketInfo.id` (empty string is falsy). -/
structure MarketInfo where
  conditionId : String
  id : String
deriving DecidableEq, Repr

/-- JS `marketInfo.conditionId || marketInfo.id`. -/
def conditionIdOf (mi : MarketInfo) : String :=
  if mi.conditionId ≠ "" then mi.conditionId else mi.id

/-- The `MarketFilters` record. -/
structure MarketFilters where
  blacklistMarkets : Option (List String) := none
  minMarketLiquidity : Option ℚ := none
deriving DecidableEq, Repr

/-- The `RiskLimits` record. -/
structure RiskLimits where
  maxPositionSize : ℚ
  maxOrderValue : ℚ
  maxDailyLoss : ℚ
  maxSlippage : Option ℚ := none
deriving DecidableEq, Repr

/-- The `CopyTradingConfig` record. -/
structure CopyTradingConfig where
  copyStrategy : CopyStrategy
  scaleFactor : Option ℚ := none
  percentageOfBalance : Option ℚ := none
  riskLimits : RiskLimits
  filters : Option MarketFilters := none
deriving DecidableEq, Repr

/-- A detected trade as seen by the gate, with `parseFloat(trade.price)` and
`parseFloat(trade.size)` already taken: raw fixed-point values as rationals. -/
structure DetectedTradeQ where
  tokenID : String
  price : ℚ
  size : ℚ
  side : Side
deriving DecidableEq, Repr

/-- Price normalization `parseFloat(trade.price) / 1e18`. -/
def normalizedPrice (rawPrice : ℚ) : ℚ :=
  rawPrice / (10 ^ 18 : ℚ)

/-- Size normalization by magnitude threshold:
`rawSize > 1e15 ? rawSize / 1e18 : rawSize > 1e6 ? rawSize / 1e6 : rawSize`. -/
def normalizedSize (rawSize : ℚ) : ℚ :=
  if rawSize > 10 ^ 15 then rawSize / 10 ^ 18
  else if rawSize > 10 ^ 6 then rawSize / 10 ^ 6
  else rawSize

/-- JS `(this.config.scaleFactor || 1)`: an unset or zero scale factor falls
back to `1`. -/
def effectiveScaleFactor (sf : Option ℚ) : ℚ :=
  match sf with
  | none => 1
  | some v => if v = 0 then 1 else v

/-- The projected order value `normalizedPrice * normalizedSize * (scaleFactor || 1)`
computed by both `shouldCopyTrade` and `wouldExceedDailyLoss`. -/
def actualOrderValueUSD (cfg : CopyTradingConfig) (trade : DetectedTradeQ) : ℚ :=
  normalizedPrice trade.price * normalizedSize trade.size *
    effectiveScaleFactor cfg.scaleFactor

/-- External lookups consumed by `shouldCopyTrade`, passed as a record: the
resolved market metadata, the measured order-book liquidity, and the daily
stats after `ensureDailyStats`. -/
structure EngineEnv where
  marketInfo : Option MarketInfo
  marketLiquidity : ℚ
  dailyStats : Option DailyStats
deriving DecidableEq, Repr

/-- `CopyTradingEngine.wouldExceedDailyLoss`: projects a conservative 10% loss
of the order value on top of the accumulated daily loss. -/
def wouldExceedDailyLoss (cfg : CopyTradingConfig) (stats : Option DailyStats)
    (trade : DetectedTradeQ) : Bool :=
  match stats with
  | none => false
  | some st =>
    let potentialLoss := actualOrderValueUSD cfg trade * (1/10)
    decide (st.totalLoss + potentialLoss > cfg.riskLimits.maxDailyLoss)

/-- `CopyTradingEngine.shouldCopyTrade`: rejects when market metadata is
missing, the market is blacklisted, a configured liquidity floor is not met, or
the projected daily loss would exceed the ceiling; finally it accepts iff
`actualOrderValueUSD <= riskLimits.maxOrderValue`. -/
def shouldCopyTrade (cfg : CopyTradingConfig) (env : EngineEnv)
    (trade : DetectedTradeQ) : Bool :=
  match env.marketInfo with
  | none => false
  | some mi =>
    let condId := conditionIdOf mi
    let blacklisted :=
      match cfg.filters with
      | none => false
      | some f =>
        match f.blacklistMarkets with
        | none => false
        | some bl => bl.contains condId
    if blacklisted then false
    else
      let liquidityTooLow :=
        match cfg.filters with
        | none => false
        | some f =>
          match f.minMarketLiquidity with
          | none => false
          | some minLiq =>
            if minLiq ≠ 0 then decide (env.marketLiquidity < minLiq) else false
      if liquidityTooLow then false
      else if wouldExceedDailyLoss cfg env.dailyStats trade then false
      else decide (actualOrderValueUSD cfg trade ≤ cfg.riskLimits.maxOrderValue)

/-! ## Observer callback fan-out

Trade delivery in both `OnChainMonitor.parseTradeEvent` and
`WalletMonitor.setupOnChainMonitorCallbacks` is
`this.onTradeCallbacks.forEach((callback) => callback(trade))`: callbacks run
in registration order and an uncaught exception in one callback aborts the
`forEach`, so later callbacks are not invoked. A callback is modelled as a
function returning `Except String Unit`, and the fan-out returns the trace of
results of exactly the callbacks that were invoked. -/

/-- A registered trade observer; `Except.error` models a thrown exception. -/
abbrev TradeObserver := EmittedTrade → Except String Unit

/-- The `forEach` fan-out: runs callbacks in order and stops after the first
one that throws, returning the results of the invoked callbacks. -/
def runTradeCallbacks (callbacks : List TradeObserver) (trade : EmittedTrade) :
    List (Except String Unit) :=
  match callbacks with
  | [] => []
  | c :: rest =>
    match c trade with
    | Except.ok u => Except.ok u :: runTradeCallbacks rest trade
    | Except.error e => [Except.error e]

/-! ## Invariants and admissibility for position tracking -/

/-- Healthiness of a single tracked position: positive size, nonnegative
average entry price, and notional at least the average-price valuation. -/
def GoodPos (p : Position) : Prop :=
  0 < p.size ∧ 0 ≤ p.avgPrice ∧ p.avgPrice * p.size ≤ p.valueUSD

/-- Healthiness of every position in the map. -/
def GoodMap (m : PositionsMap) : Prop :=
  ∀ e ∈ m, GoodPos e.snd

/-- A sequence of executed orders is admissible from a given positions map when
every order has positive price and size and every SELL executes at a price not
exceeding the targeted position's existing average entry price. -/
def admissible : PositionsMap → List CalculatedOrderParams → Bool
  | _, [] => true
  | m, op :: ops =>
    (decide (0 < op.price) && decide (0 < op.size) &&
      (match op.side, mapGet m op.tokenID with
       | Side.sell, some cp => decide (op.price ≤ cp.avgPrice)
       | _, _ => true)) &&
    admissible (updatePosition m op) ops

/-! ## Concrete instances used by witnesses -/

/-- The spec's worked adaptive example: a BUY at source price 0.60 against
market price 0.50 with maxSlippage 0.02. -/
def c6TradeW : CopyTrade :=
  { tokenID := "tok", price := 3/5, size := 10, side := Side.buy }

/-- Adaptive configuration for the C6 witness. -/
def c6ConfigW : CopyStrategyConfig :=
  { strategy := CopyStrategy.adaptive, maxSlippage := some (1/50),
    currentMarketPrice := some (1/2) }

/-- Expected replica order of the C6 witness: price 0.505 = 101/200. -/
def c6OutW : CalculatedOrderParams :=
  { tokenID := "tok", price := 101/200, size := 10, side := Side.buy, feeRateBps := 0 }

/-- A scaled-strategy engine configuration with scaleFactor 0.5 and
maxOrderValue 5. -/
def c5Config : CopyTradingConfig :=
  { copyStrategy := CopyStrategy.scaled, scaleFactor := some (1/2),
    riskLimits := { maxPositionSize := 1000, maxOrderValue := 5, maxDailyLoss := 1000 } }

/-- An engine environment with resolved metadata, no filters in play and fresh
daily stats. -/
def c5Env : EngineEnv :=
  { marketInfo := some { conditionId := "c1", id := "m1" }, marketLiquidity := 0,
    dailyStats := some { date := "2026-01-01", startingBalance := 100,
                         currentBalance := 100, totalLoss := 0, totalProfit := 0,
                         tradesCount := 0 } }

/-- A raw detected trade whose normalized price is 0.6 and normalized size is
10, so normalized price times size is 6. -/
def c5Trade : DetectedTradeQ :=
  { tokenID := "T", price := 6 * 10 ^ 17, size := 10 ^ 19, side := Side.buy }

/-- The exact-strategy engine configuration (no scale factor) with
maxOrderValue 5. -/
def c5ExactConfig : CopyTradingConfig :=
  { copyStrategy := CopyStrategy.exact,
    riskLimits := { maxPositionSize := 1000, maxOrderValue := 5, maxDailyLoss := 1000 } }

/-- Day-open daily stats with balance 100. -/
def c7Start : DailyStats :=
  { date := "2026-01-01", startingBalance := 100, currentBalance := 100,
    totalLoss := 0, totalProfit := 0, tradesCount := 0 }

/-- The spec's lifecycle example first leg: BUY size 10 at price 1.00. -/
def c7Buy : CalculatedOrderParams :=
  { tokenID := "T", price := 1, size := 10, side := Side.buy, feeRateBps := 0 }

/-- The spec's lifecycle example second leg: SELL size 10 at price 1.20. -/
def c7Sell : CalculatedOrderParams :=
  { tokenID := "T", price := 6/5, size := 10, side := Side.sell, feeRateBps := 0 }

/-- A sample emitted trade for exercising callback delivery. -/
def c9SampleTrade : EmittedTrade :=
  { walletAddress := "0xaa", tokenID := 1, price := 0, size := 1, side := Side.buy }

/-! ## Helper lemmas about the JS map model -/

theorem mapGet_mapSet_self (m : PositionsMap) (k : String) (v : Position) :
    mapGet (mapSet m k v) k = some v := by
  unfold mapGet mapSet
  by_cases h : m.any (fun p => p.fst == k)
  · rw [if_pos h]
    induction m with
    | nil => simp at h
    | cons hd tl ih =>
      cases hk : (hd.fst == k) with
      | true => simp [List.find?, hk]
      | false =>
        simp only [List.any_cons, hk, Bool.false_or] at h
        simp only [List.map_cons, hk, Bool.false_eq_true, if_false, List.find?, hk]
        exact ih h
  · rw [if_neg h]
    rw [List.find?_append]
    have hnone : m.find? (fun p => p.fst == k) = none := by
      rw [List.find?_eq_none]
      intro x hx
      simp only [List.any_eq_true, not_exists, not_and] at h
      simpa using h x hx
    simp [hnone, List.find?]

theorem mapGet_mapDelete_self (m : PositionsMap) (k : String) :
    mapGet (mapDelete m k) k = none := by
  unfold mapGet mapDelete
  rw [List.find?_eq_none.mpr]
  · rfl
  · intro x hx
    rw [List.mem_filter] at hx
    simpa using hx.2

theorem mem_mapSet (m : PositionsMap) (k : String) (v : Position) (e : String × Position)
    (he : e ∈ mapSet m k v) : e = (k, v) ∨ e ∈ m := by
  unfold mapSet at he
  by_cases h : m.any (fun p => p.fst == k)
  · rw [if_pos h] at he
    rw [List.mem_map] at he
    obtain ⟨p, hp, heq⟩ := he
    by_cases hk : (p.fst == k) = true
    · left
      rw [← heq]
      simp [hk]
    · right
      rw [← heq]
      simp only [hk, Bool.false_eq_true, if_false]
      exact hp
  · rw [if_neg h] at he
    rw [List.mem_append] at he
    cases he with
    | inl h1 => exact Or.inr h1
    | inr h2 => exact Or.inl (by simpa using h2)

theorem mem_mapDelete (m : PositionsMap) (k : String) (e : String × Position)
    (he : e ∈ mapDelete m k) : e ∈ m :=
  List.mem_of_mem_filter he

theorem goodPos_of_mapGet (m : PositionsMap) (k : String) (cp : Position)
    (hm : GoodMap m) (h : mapGet m k = some cp) : GoodPos cp := by
  unfold mapGet at h
  cases hfind : m.find? (fun p => p.fst == k) with
  | none => rw [hfind] at h; cases h
  | some e =>
    rw [hfind] at h
    injection h with h2
    have hmem := List.mem_of_find?_eq_some hfind
    exact h2 ▸ hm e hmem

/-- One `updatePosition` step preserves `GoodMap`, provided the order has
positive price and size and a SELL is priced at most the existing average
entry price. -/
theorem updatePosition_good (m : PositionsMap) (op : CalculatedOrderParams)
    (hm : GoodMap m) (hp : 0 < op.price) (hs : 0 < op.size)
    (hsell : ∀ cp, op.side = Side.sell → mapGet m op.tokenID = some cp →
      op.price ≤ cp.avgPrice) :
    GoodMap (updatePosition m op) := by
  unfold updatePosition
  cases hside : op.side with
  | buy =>
    cases hget : mapGet m op.tokenID with
    | some cp =>
      have hcp := goodPos_of_mapGet m op.tokenID cp hm hget
      intro e he
      rcases mem_mapSet _ _ _ _ he with heq | hmem
      · subst heq
        have hts : (0:ℚ) < cp.size + op.size := by linarith [hcp.1]
        have hvv : (0:ℚ) ≤ cp.valueUSD :=
          le_trans (mul_nonneg hcp.2.1 (le_of_lt hcp.1)) hcp.2.2
        have htv : (0:ℚ) ≤ cp.valueUSD + op.price * op.size := by nlinarith
        refine ⟨hts, div_nonneg htv (le_of_lt hts), ?_⟩
        rw [div_mul_cancel₀]
        exact ne_of_gt hts
      · exact hm e hmem
    | none =>
      intro e he
      rcases mem_mapSet _ _ _ _ he with heq | hmem
      · subst heq
        exact ⟨hs, le_of_lt hp, le_refl _⟩
      · exact hm e hmem
  | sell =>
    cases hget : mapGet m op.tokenID with
    | some cp =>
      have hcp := goodPos_of_mapGet m op.tokenID cp hm hget
      have hple : op.price ≤ cp.avgPrice := hsell cp hside hget
      by_cases hbuy : cp.side = Side.buy
      · simp only [hbuy, if_true]
        by_cases hns : cp.size - op.size ≤ 0
        · rw [if_pos hns]
          intro e he
          exact hm e (mem_mapDelete _ _ _ he)
        · rw [if_neg hns]
          push_neg at hns
          intro e he
          rcases mem_mapSet _ _ _ _ he with heq | hmem
          · subst heq
            refine ⟨hns, hcp.2.1, ?_⟩
            dsimp only
            have h1 : op.price * op.size ≤ cp.avgPrice * op.size :=
              mul_le_mul_of_nonneg_right hple (le_of_lt hs)
            nlinarith [hcp.2.2]
          · exact hm e hmem
      · simp only [hbuy, if_false]
        exact hm
    | none => exact hm

/-! ## Claim theorems -/

/-- C1: the claim says merging and deduplicating the role-specific query
results yields exactly one emitted trade per distinct (transaction hash, log
index) pair. The dedup step actually keys the map by `transactionHash + idx`
where `idx` is the event's position in the concatenated array, so every element
gets a distinct key and nothing is deduplicated: a single `OrderFilled` log
(one (txHash, logIndex) pair) returned by both the maker-filter and the
taker-filter queries is decoded and emitted twice. -/
theorem c1_same_log_emitted_twice :
    (processOrderFilledLogs ["0xaa"]
        (fun _ => some { maker := "0xAA", taker := "0xBB", makerAssetId := 11,
                         takerAssetId := 0, makerAmountFilled := 4000000,
                         takerAmountFilled := 2000000 })
        [{ transactionHash := "0xabc", logIndex := 7 }]
        [{ transactionHash := "0xabc", logIndex := 7 }]).length = 2 ∧
    (specDistinctTxLogKeys
        ([{ transactionHash := "0xabc", logIndex := 7 }] ++
          [{ transactionHash := "0xabc", logIndex := 7 }] : List RawLog)).length = 1 := by
  constructor
  · decide
  · decide

/-- C2: in a decoded `OrderFilled` event, a watched maker yields an emitted
trade with side SELL, tokenID the maker-leg asset id and size the maker-leg
filled amount; a watched taker (when the maker is not watched, which is the
only way the taker leg is selected) yields side BUY, the taker-leg asset id and
the taker-leg filled amount. -/
theorem c2_order_filled_role_fields (tracked : List String) (a : OrderFilledArgs) :
    (tracked.contains (jsToLowerCase a.maker) = true →
      ∃ t, orderFilledTrade tracked a = some t ∧
        t.side = Side.sell ∧ t.tokenID = a.makerAssetId ∧ t.size = a.makerAmountFilled) ∧
    (tracked.contains (jsToLowerCase a.taker) = true →
      tracked.contains (jsToLowerCase a.maker) = false →
      ∃ t, orderFilledTrade tracked a = some t ∧
        t.side = Side.buy ∧ t.tokenID = a.takerAssetId ∧ t.size = a.takerAmountFilled) := by
  constructor
  · intro h
    refine ⟨{ walletAddress := a.maker
              tokenID := a.makerAssetId
              price := if a.makerAmountFilled ≠ 0 then
                  a.takerAmountFilled * oneE18 / a.makerAmountFilled
                else 0
              size := a.makerAmountFilled
              side := Side.sell }, ?_, rfl, rfl, rfl⟩
    simp only [orderFilledTrade, h, if_true, beq_self_eq_true]
  · intro h1 h2
    have hne : (jsToLowerCase a.taker == jsToLowerCase a.maker) = false := by
      cases hbeq : (jsToLowerCase a.taker == jsToLowerCase a.maker)
      · rfl
      · have heq := eq_of_beq hbeq
        rw [heq] at h1
        rw [h1] at h2
        cases h2
    refine ⟨{ walletAddress := a.taker
              tokenID := a.takerAssetId
              price := if a.takerAmountFilled ≠ 0 then
                  a.makerAmountFilled * oneE18 / a.takerAmountFilled
                else 0
              size := a.takerAmountFilled
              side := Side.buy }, ?_, rfl, rfl, rfl⟩
    simp only [orderFilledTrade, h1, h2, hne, if_true, if_false,
      Bool.false_eq_true, Bool.true_eq_false]

/-- Witness for C2: a concrete fill with maker `0xAA` and taker `0xBB`, decoded
once with the maker watched and once with only the taker watched. -/
theorem c2_order_filled_role_fields_witness :
    (["0xaa"].contains (jsToLowerCase "0xAA") = true ∧
      ∃ t, orderFilledTrade ["0xaa"]
          { maker := "0xAA", taker := "0xBB", makerAssetId := 11, takerAssetId := 22,
            makerAmountFilled := 4000000, takerAmountFilled := 2000000 } = some t ∧
        t.side = Side.sell ∧ t.tokenID = 11 ∧ t.size = 4000000) ∧
    (["0xbb"].contains (jsToLowerCase "0xBB") = true ∧
      ∃ t, orderFilledTrade ["0xbb"]
          { maker := "0xAA", taker := "0xBB", makerAssetId := 11, takerAssetId := 22,
            makerAmountFilled := 4000000, takerAmountFilled := 2000000 } = some t ∧
        t.side = Side.buy ∧ t.tokenID = 22 ∧ t.size = 2000000) :=
  ⟨⟨by decide,
    (c2_order_filled_role_fields ["0xaa"]
      { maker := "0xAA", taker := "0xBB", makerAssetId := 11, takerAssetId := 22,
        makerAmountFilled := 4000000, takerAmountFilled := 2000000 }).1 (by decide)⟩,
   ⟨by decide,
    (c2_order_filled_role_fields ["0xbb"]
      { maker := "0xAA", taker := "0xBB", makerAssetId := 11, takerAssetId := 22,
        makerAmountFilled := 4000000, takerAmountFilled := 2000000 }).2 (by decide) (by decide)⟩⟩

/-- C10: in every emitted `OrderFilled` or `OrdersMatched` trade, the size
field equals the filled amount of the leg whose size is reported, which is
exactly the divisor of the fixed-point price computation; when it is zero the
guard skips the division and the `'0'` price sentinel is kept, and otherwise
the price is the guarded integer division `amount * 1e18 / size`. The
extraction functions are total, so no division-by-zero error can be raised. -/
theorem c10_price_division_guard (tracked : List String) (a : OrderFilledArgs)
    (b : OrdersMatchedArgs) (t u : EmittedTrade) :
    (orderFilledTrade tracked a = some t → t.size = 0 → t.price = 0) ∧
    (orderFilledTrade tracked a = some t → t.size ≠ 0 →
      t.price = (if t.side = Side.sell then a.takerAmountFilled else a.makerAmountFilled)
        * oneE18 / t.size) ∧
    (ordersMatchedTrade tracked b = some u → u.size = 0 → u.price = 0) ∧
    (ordersMatchedTrade tracked b = some u → u.size ≠ 0 →
      u.price = b.makerAmountFilled * oneE18 / u.size) := by
  refine ⟨?_, ?_, ?_, ?_⟩
  · intro hsome hz
    simp only [orderFilledTrade] at hsome
    split at hsome
    · cases hsome
    · split at hsome <;> (cases hsome; simp_all)
  · intro hsome hnz
    simp only [orderFilledTrade] at hsome
    split at hsome
    · cases hsome
    · split at hsome <;> (cases hsome; simp_all)
  · intro hsome hz
    simp only [ordersMatchedTrade] at hsome
    split at hsome
    · cases hsome; simp_all
    · cases hsome
  · intro hsome hnz
    simp only [ordersMatchedTrade] at hsome
    split at hsome
    · cases hsome; simp_all
    · cases hsome

/-- Witness for C10: a fill whose maker leg filled amount is zero keeps the
zero price sentinel, and a matched order with a nonzero taker amount gets the
fixed-point ratio. -/
theorem c10_price_division_guard_witness :
    ((0 : Nat) = 0 ∧ (2000000 : Nat) ≠ 0) ∧
    ({ walletAddress := "0xAA", tokenID := 11, price := 0, size := 0,
       side := Side.sell } : EmittedTrade).price = 0 ∧
    ({ walletAddress := "0xCC", tokenID := 22, price := 500000000000000000,
       size := 2000000, side := Side.buy } : EmittedTrade).price =
      ({ takerOrderMaker := "0xCC", makerAssetId := 11, takerAssetId := 22,
         makerAmountFilled := 1000000,
         takerAmountFilled := 2000000 } : OrdersMatchedArgs).makerAmountFilled
        * oneE18 / 2000000 :=
  ⟨⟨rfl, by decide⟩,
   (c10_price_division_guard ["0xaa", "0xcc"]
      { maker := "0xAA", taker := "0xBB", makerAssetId := 11, takerAssetId := 22,
        makerAmountFilled := 0, takerAmountFilled := 2000000 }
      { takerOrderMaker := "0xCC", makerAssetId := 11, takerAssetId := 22,
        makerAmountFilled := 1000000, takerAmountFilled := 2000000 }
      { walletAddress := "0xAA", tokenID := 11, price := 0, size := 0, side := Side.sell }
      { walletAddress := "0xCC", tokenID := 22, price := 500000000000000000,
        size := 2000000, side := Side.buy }).1 (by decide) rfl,
   (c10_price_division_guard ["0xaa", "0xcc"]
      { maker := "0xAA", taker := "0xBB", makerAssetId := 11, takerAssetId := 22,
        makerAmountFilled := 0, takerAmountFilled := 2000000 }
      { takerOrderMaker := "0xCC", makerAssetId := 11, takerAssetId := 22,
        makerAmountFilled := 1000000, takerAmountFilled := 2000000 }
      { walletAddress := "0xAA", tokenID := 11, price := 0, size := 0, side := Side.sell }
      { walletAddress := "0xCC", tokenID := 22, price := 500000000000000000,
        size := 2000000, side := Side.buy }).2.2.2 (by decide) (by decide)⟩

/-- C6: under the adaptive strategy with a positive current market price and a
set maxSlippage, whenever `calculateOrderParams` succeeds the replica size
equals the source size, and the replica price is the source price unless the
relative deviation `|currentMarketPrice - price| / currentMarketPrice` exceeds
maxSlippage, in which case a BUY is clamped to
`currentMarketPrice * (1 + maxSlippage/2)` and a SELL to
`currentMarketPrice * (1 - maxSlippage/2)`. -/
theorem c6_adaptive_price (trade : CopyTrade) (config : CopyStrategyConfig)
    (marketPrice maxSlip : ℚ) (out : CalculatedOrderParams)
    (hstrat : config.strategy = CopyStrategy.adaptive)
    (hmp : config.currentMarketPrice = some marketPrice)
    (hmpPos : 0 < marketPrice)
    (hms : config.maxSlippage = some maxSlip)
    (hmsNe : maxSlip ≠ 0)
    (hok : calculateOrderParams trade config = Except.ok out) :
    out.size = trade.size ∧
    out.price =
      (if |marketPrice - trade.price| / marketPrice > maxSlip then
        (if trade.side = Side.buy then marketPrice * (1 + maxSlip * (1/2))
         else marketPrice * (1 - maxSlip * (1/2)))
      else trade.price) := by
  unfold calculateOrderParams computeStrategyParams at hok
  rw [hstrat, hmp, hms] at hok
  simp only [not_lt.mpr (le_of_lt hmpPos), if_neg (not_le.mpr hmpPos), hmsNe,
    if_false] at hok
  split at hok
  · rename_i hslip
    split at hok
    · rename_i hbuy
      split at hok
      · cases hok
      · injection hok with hout
        subst hout
        refine ⟨rfl, ?_⟩
        rw [if_pos hslip, if_pos hbuy]
    · rename_i hsell
      split at hok
      · cases hok
      · injection hok with hout
        subst hout
        refine ⟨rfl, ?_⟩
        rw [if_pos hslip, if_neg hsell]
  · rename_i hslip
    split at hok
    · cases hok
    · injection hok with hout
      subst hout
      refine ⟨rfl, ?_⟩
      rw [if_neg hslip]

/-- Witness for C6: the spec's own example evaluates to replica price 0.505
with the size unchanged. -/
theorem c6_adaptive_price_witness :
    calculateOrderParams c6TradeW c6ConfigW = Except.ok c6OutW ∧
    c6OutW.size = c6TradeW.size ∧ c6OutW.price = 101/200 := by
  have habs : |(1/2 : ℚ) - 3/5| = 1/10 := by norm_num
  have habs2 : |(1/10 : ℚ)| = 1/10 := by norm_num
  have hok : calculateOrderParams c6TradeW c6ConfigW = Except.ok c6OutW := by
    unfold calculateOrderParams computeStrategyParams c6TradeW c6ConfigW c6OutW
    norm_num [habs, habs2]
  exact ⟨hok,
    (c6_adaptive_price c6TradeW c6ConfigW (1/2) (1/50) c6OutW rfl rfl (by norm_num)
      rfl (by norm_num) hok).1,
    by norm_num [c6OutW]⟩

/-- C8: whenever the strategy computation completes with a non-positive price
or size, `calculateOrderParams` raises (returns no parameters), and whenever it
returns parameters, their price and size are positive. In particular a
zero-price trade under the exact strategy raises rather than producing a
zero-priced order (see the witness). -/
theorem c8_validation (trade : CopyTrade) (config : CopyStrategyConfig)
    (p s : ℚ) (out : CalculatedOrderParams) :
    (computeStrategyParams trade config = Except.ok (p, s) → p ≤ 0 ∨ s ≤ 0 →
      (calculateOrderParams trade config).toOption = none) ∧
    (calculateOrderParams trade config = Except.ok out →
      0 < out.price ∧ 0 < out.size) := by
  constructor
  · intro hcomp hnp
    have herr : calculateOrderParams trade config =
        Except.error "Invalid calculated order parameters" := by
      unfold calculateOrderParams
      rw [hcomp]
      exact if_pos hnp
    rw [herr]
    rfl
  · intro hok
    unfold calculateOrderParams at hok
    split at hok
    · cases hok
    · split at hok
      · cases hok
      · rename_i hcond
        injection hok with hout
        subst hout
        push_neg at hcond
        exact ⟨hcond.1, hcond.2⟩

/-- Witness for C8: a zero-price trade under the exact strategy (the transfer
price sentinel) yields no order, while a positive trade yields parameters with
positive price and size. -/
theorem c8_validation_witness :
    (calculateOrderParams { tokenID := "tok", price := 0, size := 5, side := Side.buy }
        { strategy := CopyStrategy.exact }).toOption = none ∧
    (0 < ({ tokenID := "tok", price := 2, size := 5, side := Side.buy,
            feeRateBps := 0 } : CalculatedOrderParams).price ∧
      0 < ({ tokenID := "tok", price := 2, size := 5, side := Side.buy,
             feeRateBps := 0 } : CalculatedOrderParams).size) :=
  ⟨(c8_validation { tokenID := "tok", price := 0, size := 5, side := Side.buy }
      { strategy := CopyStrategy.exact } 0 5
      { tokenID := "tok", price := 1, size := 1, side := Side.buy, feeRateBps := 0 }).1
      rfl (Or.inl le_rfl),
   (c8_validation { tokenID := "tok", price := 2, size := 5, side := Side.buy }
      { strategy := CopyStrategy.exact } 2 5
      { tokenID := "tok", price := 2, size := 5, side := Side.buy,
        feeRateBps := 0 }).2 (by
          unfold calculateOrderParams computeStrategyParams
          norm_num)⟩

/-- C3 counterexample: selling 4 tokens at price 2 from a position of 10 tokens
with average entry price 1 and notional 10 leaves `valueUSD = 10 - 2*4 = 2`
(the sell order's own price), not `10 - 1*4 = 6` as the claim's
existing-average-price rule would give. -/
theorem c3_sell_price_counterexample :
    mapGet (updatePosition
        [("T", { tokenID := "T", size := 10, avgPrice := 1, side := Side.buy,
                 valueUSD := 10 })]
        { tokenID := "T", price := 2, size := 4, side := Side.sell, feeRateBps := 0 }) "T" =
      some { tokenID := "T", size := 6, avgPrice := 1, side := Side.buy, valueUSD := 2 } ∧
    (2 : ℚ) ≠ 10 - 1 * 4 := by
  constructor
  · norm_num [updatePosition, mapGet, mapSet, mapDelete, List.find?]
  · norm_num

/-- C3 (amended): a SELL against an existing BUY position decreases the
notional by the sell order's own price times size (while keeping the stored
average entry price unchanged), and deletes the position entirely once the
remaining size is `≤ 0` — a position is never kept at zero quantity. -/
theorem c3_sell_update (positions : PositionsMap) (cp : Position)
    (op : CalculatedOrderParams)
    (hside : op.side = Side.sell)
    (hget : mapGet positions op.tokenID = some cp)
    (hcp : cp.side = Side.buy) :
    (cp.size - op.size ≤ 0 → mapGet (updatePosition positions op) op.tokenID = none) ∧
    (0 < cp.size - op.size → mapGet (updatePosition positions op) op.tokenID =
      some { tokenID := op.tokenID, size := cp.size - op.size, avgPrice := cp.avgPrice,
             side := Side.buy, valueUSD := cp.valueUSD - op.price * op.size }) := by
  unfold updatePosition
  rw [hside, hget]
  simp only [hcp, if_true]
  constructor
  · intro h
    rw [if_pos h]
    exact mapGet_mapDelete_self positions op.tokenID
  · intro h
    rw [if_neg (not_le.mpr h)]
    exact mapGet_mapSet_self positions op.tokenID _

/-- Witness for C3: a partial sell keeps the position with the order-price
decrement, and selling the full size deletes the position. -/
theorem c3_sell_update_witness :
    mapGet (updatePosition
        [("T", { tokenID := "T", size := 10, avgPrice := 1, side := Side.buy,
                 valueUSD := 10 })]
        { tokenID := "T", price := 2, size := 4, side := Side.sell, feeRateBps := 0 }) "T" =
      some { tokenID := "T", size := 10 - 4, avgPrice := 1, side := Side.buy,
             valueUSD := 10 - 2 * 4 } ∧
    mapGet (updatePosition
        [("T", { tokenID := "T", size := 10, avgPrice := 1, side := Side.buy,
                 valueUSD := 10 })]
        { tokenID := "T", price := 1, size := 10, side := Side.sell, feeRateBps := 0 }) "T" =
      none :=
  ⟨(c3_sell_update
      [("T", { tokenID := "T", size := 10, avgPrice := 1, side := Side.buy, valueUSD := 10 })]
      { tokenID := "T", size := 10, avgPrice := 1, side := Side.buy, valueUSD := 10 }
      { tokenID := "T", price := 2, size := 4, side := Side.sell, feeRateBps := 0 }
      rfl rfl rfl).2 (by norm_num),
   (c3_sell_update
      [("T", { tokenID := "T", size := 10, avgPrice := 1, side := Side.buy, valueUSD := 10 })]
      { tokenID := "T", size := 10, avgPrice := 1, side := Side.buy, valueUSD := 10 }
      { tokenID := "T", price := 1, size := 10, side := Side.sell, feeRateBps := 0 }
      rfl rfl rfl).1 (by norm_num)⟩

/-- C4 counterexample: BUY 10 at price 1 then SELL 9 at price 1.2 leaves the
position with `valueUSD = 10 - 9*1.2 = -0.8 < 0`, refuting the claim that
`valueUSD` is never negative after updates. -/
theorem c4_negative_value_counterexample :
    mapGet (applyOrders []
        [{ tokenID := "T", price := 1, size := 10, side := Side.buy, feeRateBps := 0 },
         { tokenID := "T", price := 6/5, size := 9, side := Side.sell, feeRateBps := 0 }]) "T" =
      some { tokenID := "T", size := 1, avgPrice := 1, side := Side.buy,
             valueUSD := -(4/5) } ∧
    (-(4/5) : ℚ) < 0 := by
  constructor
  · norm_num [applyOrders, updatePosition, mapGet, mapSet, mapDelete, List.find?,
      List.foldl]
  · norm_num

/-- C4 (amended): every position left by a sequence of executed orders has
nonnegative `valueUSD`, provided each order has positive price and size and
each SELL executes at a price not exceeding the position's existing average
entry price; without that price bound `valueUSD` can go negative. -/
theorem c4_value_usd_nonneg (ops : List CalculatedOrderParams) (m : PositionsMap)
    (hm : GoodMap m) (h : admissible m ops = true) :
    ∀ e ∈ applyOrders m ops, 0 ≤ e.snd.valueUSD := by
  induction ops generalizing m with
  | nil =>
    intro e he
    have hg := hm e he
    exact le_trans (mul_nonneg hg.2.1 (le_of_lt hg.1)) hg.2.2
  | cons op ops ih =>
    simp only [admissible, Bool.and_eq_true, decide_eq_true_eq] at h
    obtain ⟨⟨⟨hp, hs⟩, hmatch⟩, hrest⟩ := h
    have hgood : GoodMap (updatePosition m op) := by
      refine updatePosition_good m op hm hp hs ?_
      intro cp hside hget
      rw [hside, hget] at hmatch
      simpa using hmatch
    exact ih (updatePosition m op) hgood hrest

/-- Witness for C4: a BUY followed by a SELL at the entry price is admissible
from the empty map and leaves only nonnegative position values. -/
theorem c4_value_usd_nonneg_witness :
    admissible []
        [{ tokenID := "T", price := 1, size := 10, side := Side.buy, feeRateBps := 0 },
         { tokenID := "T", price := 1, size := 4, side := Side.sell, feeRateBps := 0 }] = true ∧
    ∀ e ∈ applyOrders []
        [{ tokenID := "T", price := 1, size := 10, side := Side.buy, feeRateBps := 0 },
         { tokenID := "T", price := 1, size := 4, side := Side.sell, feeRateBps := 0 }],
      0 ≤ e.snd.valueUSD :=
  have hadm : admissible []
      [{ tokenID := "T", price := 1, size := 10, side := Side.buy, feeRateBps := 0 },
       { tokenID := "T", price := 1, size := 4, side := Side.sell, feeRateBps := 0 }] = true := by
    norm_num [admissible, updatePosition, mapGet, mapSet, mapDelete, List.find?]
  ⟨hadm,
   c4_value_usd_nonneg _ [] (fun e he => absurd he (List.not_mem_nil e)) hadm⟩

/-- C5 counterexample: with the scaled strategy and scaleFactor 0.5, a trade
whose normalized price times normalized size is 6 passes the gate against
maxOrderValue 5, because the gate compares
`normalizedPrice * normalizedSize * scaleFactor = 3` instead of the
unscaled product. -/
theorem c5_gate_counterexample :
    shouldCopyTrade c5Config c5Env c5Trade = true ∧
    c5Config.riskLimits.maxOrderValue <
      normalizedPrice c5Trade.price * normalizedSize c5Trade.size := by
  constructor
  · norm_num [shouldCopyTrade, wouldExceedDailyLoss, actualOrderValueUSD,
      normalizedPrice, normalizedSize, effectiveScaleFactor, conditionIdOf,
      c5Config, c5Env, c5Trade]
  · norm_num [normalizedPrice, normalizedSize, c5Config, c5Trade]

/-- C5 (amended): the gate rejects whenever the scale-adjusted projected order
value — normalized price times normalized size times the configured scale
factor (defaulting to 1 when unset or zero) — exceeds maxOrderValue; with no
scale factor configured this is exactly the claim's normalized price times
size. -/
theorem c5_order_value_gate (cfg : CopyTradingConfig) (env : EngineEnv)
    (trade : DetectedTradeQ)
    (h : cfg.riskLimits.maxOrderValue < actualOrderValueUSD cfg trade) :
    shouldCopyTrade cfg env trade = false := by
  unfold shouldCopyTrade
  cases env.marketInfo with
  | none => rfl
  | some mi =>
    dsimp only
    repeat' split
    all_goals first
      | rfl
      | exact decide_eq_false (not_le.mpr h)

/-- Witness for C5: under the exact-strategy configuration (no scale factor)
the same trade with normalized value 6 is rejected against maxOrderValue 5. -/
theorem c5_order_value_gate_witness :
    c5ExactConfig.riskLimits.maxOrderValue < actualOrderValueUSD c5ExactConfig c5Trade ∧
    shouldCopyTrade c5ExactConfig c5Env c5Trade = false :=
  have h : c5ExactConfig.riskLimits.maxOrderValue <
      actualOrderValueUSD c5ExactConfig c5Trade := by
    norm_num [actualOrderValueUSD, normalizedPrice, normalizedSize,
      effectiveScaleFactor, c5ExactConfig, c5Trade]
  ⟨h, c5_order_value_gate c5ExactConfig c5Env c5Trade h⟩

/-- C7 counterexample: with day-open balance 100, a BUY of notional 10 followed
by a SELL of notional 12 gives the claimed balance sequence 90 then 102, but
`totalLoss` remains 10 from the first update while the claim's formula
`max(0, startingBalance - currentBalance)` gives 0 — the stale side is never
reset. -/
theorem c7_stale_loss_counterexample :
    (updateDailyStats c7Start c7Buy).currentBalance = 90 ∧
    (updateDailyStats (updateDailyStats c7Start c7Buy) c7Sell).currentBalance = 102 ∧
    (updateDailyStats (updateDailyStats c7Start c7Buy) c7Sell).totalLoss = 10 ∧
    max 0 ((updateDailyStats (updateDailyStats c7Start c7Buy) c7Sell).startingBalance -
      (updateDailyStats (updateDailyStats c7Start c7Buy) c7Sell).currentBalance) = 0 ∧
    (10 : ℚ) ≠ 0 := by
  refine ⟨?_, ?_, ?_, ?_, by norm_num⟩ <;>
    (simp [updateDailyStats, c7Start, c7Buy, c7Sell]; try norm_num)

/-- C7 (amended): each update debits the running balance by the order notional
on a BUY and credits it on a SELL; afterwards, if the running balance is below
the day-open balance then `totalLoss` equals that deficit and `totalProfit`
keeps its previous value, and otherwise `totalProfit` equals the surplus and
`totalLoss` keeps its previous value — the side not matching the sign of the
deviation is stale rather than reset to zero. -/
theorem c7_daily_stats_update (stats : DailyStats) (orderParams : CalculatedOrderParams) :
    (updateDailyStats stats orderParams).currentBalance = jsNewBalance stats orderParams ∧
    (updateDailyStats stats orderParams).totalLoss =
      (if jsNewBalance stats orderParams - stats.startingBalance < 0 then
        stats.startingBalance - jsNewBalance stats orderParams
      else stats.totalLoss) ∧
    (updateDailyStats stats orderParams).totalProfit =
      (if jsNewBalance stats orderParams - stats.startingBalance < 0 then
        stats.totalProfit
      else jsNewBalance stats orderParams - stats.startingBalance) ∧
    (updateDailyStats stats orderParams).startingBalance = stats.startingBalance ∧
    (updateDailyStats stats orderParams).tradesCount = stats.tradesCount + 1 := by
  by_cases hneg : jsNewBalance stats orderParams - stats.startingBalance < 0
  · simp only [updateDailyStats, jsNewBalance] at *
    simp only [if_pos hneg, abs_of_neg hneg]
    and_intros <;> first | trivial | ring
  · simp only [updateDailyStats, jsNewBalance] at *
    simp only [if_neg hneg]
    and_intros <;> trivial

/-- C9 counterexample: with two registered observers of which the first throws,
the `forEach` fan-out invokes only one callback — the second observer never
receives the trade, so one observer's failure does block delivery to a
sibling. -/
theorem c9_blocked_delivery_counterexample :
    (runTradeCallbacks
        [fun _ => Except.error "observer failure", fun _ => Except.ok ()]
        c9SampleTrade).length = 1 ∧
    ([fun _ => Except.error "observer failure", fun _ => Except.ok ()] :
        List TradeObserver).length = 2 :=
  ⟨rfl, rfl⟩

/-- C9 (amended): observers registered before a throwing observer still receive
the trade and the throwing observer is invoked, but observers registered after
it are not; when no observer throws, every registered observer receives the
trade. -/
theorem c9_delivery_until_first_failure (pre post cbs : List TradeObserver)
    (c : TradeObserver) (trade : EmittedTrade)
    (hpre : ∀ f ∈ pre, ∃ u, f trade = Except.ok u)
    (hc : ∃ e, c trade = Except.error e)
    (hall : ∀ f ∈ cbs, ∃ u, f trade = Except.ok u) :
    runTradeCallbacks (pre ++ c :: post) trade =
      pre.map (fun f => f trade) ++ [c trade] ∧
    runTradeCallbacks cbs trade = cbs.map (fun f => f trade) := by
  constructor
  · induction pre with
    | nil =>
      obtain ⟨e, he⟩ := hc
      simp [runTradeCallbacks, he]
    | cons f pre ih =>
      obtain ⟨u, hu⟩ := hpre f (List.mem_cons_self f pre)
      cases u
      simp only [List.cons_append, runTradeCallbacks, hu, List.map_cons]
      exact congrArg _ (ih (fun g hg => hpre g (List.mem_cons_of_mem f hg)))
  · induction cbs with
    | nil => rfl
    | cons f cbs ih =>
      obtain ⟨u, hu⟩ := hall f (List.mem_cons_self f cbs)
      cases u
      simp only [runTradeCallbacks, hu, List.map_cons]
      exact congrArg _ (ih (fun g hg => hall g (List.mem_cons_of_mem f hg)))

/-- Witness for C9: with an ok-observer before and after a throwing observer,
exactly the first two are invoked; an all-ok list is fully delivered. -/
theorem c9_delivery_witness :
    runTradeCallbacks
        [fun _ => Except.ok (), (fun _ => Except.error "boom" : TradeObserver),
         fun _ => Except.ok ()] c9SampleTrade =
      [Except.ok (), Except.error "boom"] ∧
    runTradeCallbacks [(fun _ => Except.ok () : TradeObserver)] c9SampleTrade =
      [Except.ok ()] :=
  have h := c9_delivery_until_first_failure
    [fun _ => Except.ok ()] [fun _ => Except.ok ()] [fun _ => Except.ok ()]
    (fun _ => Except.error "boom") c9SampleTrade
    (by intro f hf; rw [List.mem_singleton] at hf; subst hf; exact ⟨(), rfl⟩)
    ⟨"boom", rfl⟩
    (by intro f hf; rw [List.mem_singleton] at hf; subst hf; exact ⟨(), rfl⟩)
  ⟨h.1, h.2⟩

end PolyAgent
